import Mathlib

/-
  Verification of the TPL0102 dual digital potentiometer driver
  (src/TPL0102.cpp) against its natural-language specification.

  The driver is embedded shallowly: each public method becomes a Lean
  function on an explicit driver-state record.  Bus I/O through the
  `Wire` collaborator is modelled by (a) a list of `Tx` events describing
  the transactions the method issues, and (b) explicit parameters for the
  bytes the collaborator returns (read results, `endTransmission` result
  codes).  Machine integers (`uint8_t`, `int`) are modelled as `Nat`/`Int`
  with explicit `% 256` at every conversion the C++ performs.  Debug
  `Serial` printing and the `micros()` timing telemetry are pure
  side-channels (never read by any modelled operation) and are elided.
  Floating-point values (`float desiredR`, `_nominalResistance`) are
  modelled as rationals with exact arithmetic.
-/

set_option autoImplicit false
set_option linter.unusedVariables false

namespace TPL0102

/-- Modelled from the spec: the header `TPL0102.h` defining the protocol
constants is not under `src/`.  The spec fixes the total tap count at 64
(`MAX_TAP`), used both as the increment saturation bound and as the
denominator of the wiper fraction. -/
def TPL0102_TAP_NUMBER : Nat := 64

/-- Modelled from the spec: wiper register A address (header not under
`src/`; numeric value taken from the device datasheet — no theorem below
depends on it beyond `WRA ≠ WRB ≠ ACR`). -/
def WRA : Nat := 0

/-- Modelled from the spec: wiper register B address (see `WRA`). -/
def WRB : Nat := 1

/-- Modelled from the spec: access-control register address (see `WRA`). -/
def ACR : Nat := 16

/-- Modelled from the spec: shutdown bit mask within the control register
(header not under `src/`; the theorems about `switchPot` hold for every
byte value of the mask, the concrete value is only a representative). -/
def SHUTDOWN_MASK : Nat := 64

/-- Modelled from the spec: the device's datasheet nominal end-to-end
resistance, the default when `begin` is called without an override. -/
def TPL0102_NOMINAL_RESISTANCE : ℚ := 10000

/-- Modelled from the spec: the standard bus clock speed constant passed
to `Wire.setClock` by both `begin` overloads. -/
def STANDARD : Nat := 100000

/-- Arduino core constant: digital level HIGH. -/
def HIGH : Nat := 1

/-- Arduino core constant: digital level LOW. -/
def LOW : Nat := 0

/-- One bus transaction issued through the `Wire` collaborator.
`write reg val` is the sequence beginTransmission / write(reg) /
write(val) / endTransmission(true); `readReg reg` is the single-byte
write-then-read sequence beginTransmission / write(reg) /
endTransmission(false) / requestFrom(1); `setClock v` is a clock-speed
configuration call. -/
inductive Tx where
  | write (reg val : Nat) : Tx
  | readReg (reg : Nat) : Tx
  | setClock (speed : Nat) : Tx
deriving DecidableEq, Repr

/-- The driver's instance state: the two-entry `_tapPointer` mirror
(split into its two `uint8_t` cells), the `_selectedChannel` cursor, the
configured `_nominalResistance` and bus `address`, and the three-entry
`_initialState` buffer filled by `readRegistersStatus`. -/
structure State where
  tapPointer0 : Nat
  tapPointer1 : Nat
  selectedChannel : Nat
  nominalResistance : ℚ
  address : Nat
  initialState0 : Nat
  initialState1 : Nat
  initialState2 : Nat
deriving DecidableEq, Repr

/-- Read `_tapPointer[ch]`. -/
def tapGet (s : State) (ch : Fin 2) : Nat :=
  if ch = 0 then s.tapPointer0 else s.tapPointer1

/-- Write `_tapPointer[ch] = v`. -/
def tapSet (s : State) (ch : Fin 2) (v : Nat) : State :=
  if ch = 0 then { s with tapPointer0 := v } else { s with tapPointer1 := v }

/-- C++ conversion of an `int` to `uint8_t`: reduction modulo 256. -/
def intToByte (t : Int) : Nat := (t % 256).toNat

/-- C library `round` (half away from zero), applied to an exact
rational in place of the C++ `float` computation. -/
def cround (x : ℚ) : Int :=
  if 0 ≤ x then ⌊x + 1 / 2⌋ else ⌈x - 1 / 2⌉

/-- TPL0102::dataWrite (src/TPL0102.cpp:254-278): selects the wiper
register for `ch`, sets the cursor, and issues one write transaction.
The `res` parameter is the result code `Wire.endTransmission(true)`
returns; the source stores it in a local only to debug-print it, so the
resulting state does not depend on it. -/
def dataWrite (s : State) (ch : Fin 2) (val : Nat) (res : Int) : State × List Tx :=
  let wiperPointer := if ch = 0 then WRA else WRB
  ({ s with selectedChannel := ch.val }, [Tx.write wiperPointer (val % 256)])

/-- TPL0102::inc (src/TPL0102.cpp:195-223): sets the cursor; if the
mirror is below `TPL0102_TAP_NUMBER`, increments it (a `uint8_t`
increment, hence `% 256`), clamps it to `TPL0102_TAP_NUMBER`, and writes
it out via `dataWrite`; otherwise does nothing further. -/
def inc (s : State) (ch : Fin 2) (res : Int) : State × List Tx :=
  let s1 := { s with selectedChannel := ch.val }
  if tapGet s1 ch < TPL0102_TAP_NUMBER then
    let t1 := (tapGet s1 ch + 1) % 256
    let t2 := if TPL0102_TAP_NUMBER ≤ t1 then TPL0102_TAP_NUMBER else t1
    dataWrite (tapSet s1 ch t2) ch t2 res
  else
    (s1, [])

/-- TPL0102::dec (src/TPL0102.cpp:226-251): symmetric to `inc`,
decrementing while the mirror is above 0 and clamping at 0. -/
def dec (s : State) (ch : Fin 2) (res : Int) : State × List Tx :=
  let s1 := { s with selectedChannel := ch.val }
  if 0 < tapGet s1 ch then
    let t1 := tapGet s1 ch - 1
    let t2 := if t1 = 0 then 0 else t1
    dataWrite (tapSet s1 ch t2) ch t2 res
  else
    (s1, [])

/-- TPL0102::zeroWiper (src/TPL0102.cpp:409-416): unconditionally sets
the cursor, zeroes the mirror, and writes it out. -/
def zeroWiper (s : State) (ch : Fin 2) (res : Int) : State × List Tx :=
  let s1 := { s with selectedChannel := ch.val }
  let s2 := tapSet s1 ch 0
  dataWrite s2 ch (tapGet s2 ch) res

/-- TPL0102::maxWiper (src/TPL0102.cpp:419-426): unconditionally sets
the cursor, sets the mirror to `TPL0102_TAP_NUMBER`, and writes it
out. -/
def maxWiper (s : State) (ch : Fin 2) (res : Int) : State × List Tx :=
  let s1 := { s with selectedChannel := ch.val }
  let s2 := tapSet s1 ch TPL0102_TAP_NUMBER
  dataWrite s2 ch (tapGet s2 ch) res

/-- TPL0102::setTap (src/TPL0102.cpp:356-391): the `int` target is the
`uint8_t` argument; if it differs from the mirror, `dataWrite` is
called and the mirror is assigned the target (an `int`-to-`uint8_t`
store); otherwise nothing happens.  Returns the target as `uint8_t`.
Note the cursor is only touched through `dataWrite`. -/
def setTap (s : State) (ch : Fin 2) (desiredTap : Nat) (res : Int) :
    (State × List Tx) × Nat :=
  let tapTarget : Int := (desiredTap % 256 : Nat)
  if tapTarget ≠ (tapGet s ch : Int) then
    let s1 := (dataWrite s ch (intToByte tapTarget) res).1
    let s2 := tapSet s1 ch (intToByte tapTarget)
    ((s2, (dataWrite s ch (intToByte tapTarget) res).2), intToByte tapTarget)
  else
    ((s, []), intToByte tapTarget)

/-- TPL0102::setValue (src/TPL0102.cpp:310-354): computes
`tapTarget = round(desiredR * TPL0102_TAP_NUMBER / _nominalResistance)`
as an `int`; if it differs from the mirror, `dataWrite` is called and
the mirror is assigned the target (an `int`-to-`uint8_t` store);
otherwise nothing happens.  Returns the target as `uint8_t`.  Like
`setTap`, the cursor is only touched through `dataWrite`. -/
def setValue (s : State) (ch : Fin 2) (desiredR : ℚ) (res : Int) :
    (State × List Tx) × Nat :=
  let tapTarget : Int := cround (desiredR * (TPL0102_TAP_NUMBER : ℚ) / s.nominalResistance)
  if tapTarget ≠ (tapGet s ch : Int) then
    let s1 := (dataWrite s ch (intToByte tapTarget) res).1
    let s2 := tapSet s1 ch (intToByte tapTarget)
    ((s2, (dataWrite s ch (intToByte tapTarget) res).2), intToByte tapTarget)
  else
    ((s, []), intToByte tapTarget)

/-- TPL0102::wiper (src/TPL0102.cpp:137-143): sets the cursor and
returns `_tapPointer[ch] / TPL0102_TAP_NUMBER` (a float division in the
source, exact rational division here). -/
def wiper (s : State) (ch : Fin 2) : State × ℚ :=
  ({ s with selectedChannel := ch.val },
    (tapGet s ch : ℚ) / (TPL0102_TAP_NUMBER : ℚ))

/-- TPL0102::taps (src/TPL0102.cpp:302-307): sets the cursor and
returns the mirror value. -/
def taps (s : State) (ch : Fin 2) : State × Nat :=
  ({ s with selectedChannel := ch.val }, tapGet s ch)

/-- TPL0102::readValue (src/TPL0102.cpp:429-435): sets the cursor and
returns `(_tapPointer[ch] / TPL0102_TAP_NUMBER) * _nominalResistance`. -/
def readValue (s : State) (ch : Fin 2) : State × ℚ :=
  ({ s with selectedChannel := ch.val },
    (tapGet s ch : ℚ) / (TPL0102_TAP_NUMBER : ℚ) * s.nominalResistance)

/-- TPL0102::setChannel (src/TPL0102.cpp:396-406): sets the cursor
(and toggles the indicator outputs when configured — a pure output side
effect, elided) and returns it. -/
def setChannel (s : State) (ch : Fin 2) : State × Nat :=
  ({ s with selectedChannel := ch.val }, ch.val)

/-- The `switch (st)` block of TPL0102::switchPot
(src/TPL0102.cpp:167-186): the byte written back to the control
register, given the byte read from it.  `HIGH` ORs the shutdown mask in,
`LOW` XORs it, any other value leaves the byte unchanged; the result is
stored into a `uint8_t`, hence the `% 256`. -/
def shdnInstr (st acrValue : Nat) : Nat :=
  if st = HIGH then (acrValue % 256 ||| SHUTDOWN_MASK) % 256
  else if st = LOW then (acrValue % 256 ^^^ SHUTDOWN_MASK) % 256
  else (acrValue % 256 ||| 0) % 256

/-- TPL0102::switchPot (src/TPL0102.cpp:147-193): sets the cursor,
reads the control register (the collaborator's reply is the `acrValue`
parameter), computes the new byte via the `switch (st)` block, and
writes it back. -/
def switchPot (s : State) (ch : Fin 2) (st : Nat) (acrValue : Nat) : State × List Tx :=
  ({ s with selectedChannel := ch.val },
    [Tx.readReg ACR, Tx.write ACR (shdnInstr st acrValue)])

/-- Modelled from the spec: the `_regs` array (declared in the header,
not under `src/`) holds wiper-A, wiper-B and the control register, in
the order implied by `begin` copying `_initialState[0]`/`[1]` into the
two tap mirrors. -/
def regsArr : Fin 3 → Nat
  | 0 => WRA
  | 1 => WRB
  | 2 => ACR

/-- TPL0102::readRegistersStatus (src/TPL0102.cpp:438-472): reads the
three registers of `_regs` into `_initialState`; each collaborator
reply byte comes from `regVals`. -/
def readRegistersStatus (s : State) (regVals : Fin 3 → Nat) : State × List Tx :=
  ({ s with
      initialState0 := regVals 0 % 256
      initialState1 := regVals 1 % 256
      initialState2 := regVals 2 % 256 },
    [Tx.readReg (regsArr 0), Tx.readReg (regsArr 1), Tx.readReg (regsArr 2)])

/-- TPL0102::begin(addr, speed) (src/TPL0102.cpp:85-109): configures
the clock to `STANDARD` (the `speed` argument is never used), stores the
address and the default nominal resistance, runs
`readRegistersStatus`, and copies `_initialState[0..1]` into the tap
mirrors. -/
def beginDefault (s : State) (addr : Nat) (speed : Nat) (regVals : Fin 3 → Nat) :
    State × List Tx :=
  let s1 := { s with address := addr % 65536,
                     nominalResistance := TPL0102_NOMINAL_RESISTANCE }
  let r := readRegistersStatus s1 regVals
  let s2 := { r.1 with tapPointer0 := r.1.initialState0,
                       tapPointer1 := r.1.initialState1 }
  (s2, Tx.setClock STANDARD :: r.2)

/-- TPL0102::begin(addr, nomRes, speed) (src/TPL0102.cpp:111-135):
identical to `beginDefault` except the nominal resistance is the
caller-supplied override. -/
def beginNomRes (s : State) (addr : Nat) (nomRes : ℚ) (speed : Nat)
    (regVals : Fin 3 → Nat) : State × List Tx :=
  let s1 := { s with address := addr % 65536, nominalResistance := nomRes }
  let r := readRegistersStatus s1 regVals
  let s2 := { r.1 with tapPointer0 := r.1.initialState0,
                       tapPointer1 := r.1.initialState1 }
  (s2, Tx.setClock STANDARD :: r.2)

/-- A representative post-`begin` driver state: both mirrors at 0,
channel A selected, nominal resistance 10000 Ω. -/
def initState : State :=
  { tapPointer0 := 0, tapPointer1 := 0, selectedChannel := 0,
    nominalResistance := 10000, address := 40,
    initialState0 := 0, initialState1 := 0, initialState2 := 0 }

example : tapGet (inc initState 0 0).1 0 = 1 := by decide
example : (inc initState 0 0).2 = [Tx.write WRA 1] := by decide
example : tapGet ((setTap initState 0 200 0).1.1) 0 = 200 := by decide
example : (setValue initState 0 2500 0).2 = 16 := by
  simp [setValue, cround, initState, tapGet, intToByte, TPL0102_TAP_NUMBER]
  norm_num
  decide

/-- A driver state whose channel-A mirror sits strictly between the
rails, used to exhibit behaviour on a partially raised wiper. -/
def midState : State := { initState with tapPointer0 := 5 }

/-- A driver state whose channel-A mirror is saturated at the top tap. -/
def maxState : State := { initState with tapPointer0 := TPL0102_TAP_NUMBER }

/-- Iterated `inc` on one channel (the ignored transaction result code
is fixed at 0; by `res`-independence of `inc` any other choice gives
the same states). -/
def incN (s : State) (ch : Fin 2) : Nat → State
  | 0 => s
  | k + 1 => (inc (incN s ch k) ch 0).1

lemma tapGet_set_cursor (s : State) (c : Nat) (ch : Fin 2) :
    tapGet { s with selectedChannel := c } ch = tapGet s ch := by
  simp [tapGet]

lemma tapGet_tapSet_self (s : State) (ch : Fin 2) (v : Nat) :
    tapGet (tapSet s ch v) ch = v := by
  fin_cases ch <;> simp [tapGet, tapSet]

lemma inc_tapGet (s : State) (ch : Fin 2) (r : Int)
    (h : tapGet s ch ≤ TPL0102_TAP_NUMBER) :
    tapGet (inc s ch r).1 ch = min (tapGet s ch + 1) TPL0102_TAP_NUMBER := by
  fin_cases ch <;>
  · simp only [inc, dataWrite, tapGet, tapSet, TPL0102_TAP_NUMBER] at *
    split_ifs <;> simp_all <;> omega

lemma incN_tapGet (s : State) (ch : Fin 2) (k : Nat)
    (h : tapGet s ch ≤ TPL0102_TAP_NUMBER) :
    tapGet (incN s ch k) ch = min (tapGet s ch + k) TPL0102_TAP_NUMBER := by
  induction k with
  | zero =>
      simp [incN]
      unfold TPL0102_TAP_NUMBER at *
      omega
  | succ n ih =>
      have hb : tapGet (incN s ch n) ch ≤ TPL0102_TAP_NUMBER := by
        rw [ih]
        exact min_le_right _ _
      rw [incN, inc_tapGet _ _ _ hb, ih]
      unfold TPL0102_TAP_NUMBER
      unfold TPL0102_TAP_NUMBER at h
      omega

lemma intToByte_lt (t : Int) : intToByte t < 256 := by
  unfold intToByte
  omega

lemma intToByte_natCast (d : Nat) : intToByte (d : Int) = d % 256 := by
  unfold intToByte
  omega

/-- Normal form of `setTap`: compare the byte-reduced target with the
mirror; on a hit return everything untouched, on a miss set the cursor,
store the target, and emit one wiper write. -/
lemma setTap_unfold (s : State) (ch : Fin 2) (t : Nat) (r : Int) :
    setTap s ch t r =
      if t % 256 = tapGet s ch then ((s, []), t % 256)
      else ((tapSet { s with selectedChannel := ch.val } ch (t % 256),
             [Tx.write (if ch = 0 then WRA else WRB) (t % 256)]), t % 256) := by
  have hv : intToByte ((t % 256 : Nat) : Int) = t % 256 := by
    unfold intToByte
    omega
  have hmod : t % 256 % 256 = t % 256 := by omega
  simp only [setTap, dataWrite, hv]
  by_cases h : (t % 256 : Nat) = tapGet s ch
  · have hc : ¬ (((t % 256 : Nat) : Int) ≠ (tapGet s ch : Int)) := by
      simp [h]
    simp [hc, h]
  · have hc : ((t % 256 : Nat) : Int) ≠ (tapGet s ch : Int) := by
      exact_mod_cast h
    simp [hc, h, hmod]
    omega

/-- Normal form of `setValue`: with `T` the rounded tap target as an
`int`, compare `T` with the mirror; on a hit return everything
untouched, on a miss set the cursor, store the byte reduction of `T`,
and emit one wiper write carrying it. -/
lemma setValue_unfold (s : State) (ch : Fin 2) (q : ℚ) (r : Int) :
    setValue s ch q r =
      if cround (q * (TPL0102_TAP_NUMBER : ℚ) / s.nominalResistance) = (tapGet s ch : Int)
      then ((s, []),
            intToByte (cround (q * (TPL0102_TAP_NUMBER : ℚ) / s.nominalResistance)))
      else ((tapSet { s with selectedChannel := ch.val } ch
               (intToByte (cround (q * (TPL0102_TAP_NUMBER : ℚ) / s.nominalResistance))),
             [Tx.write (if ch = 0 then WRA else WRB)
               (intToByte (cround (q * (TPL0102_TAP_NUMBER : ℚ) / s.nominalResistance)))]),
            intToByte (cround (q * (TPL0102_TAP_NUMBER : ℚ) / s.nominalResistance))) := by
  have hmod : ∀ n : Nat, n < 256 → n % 256 = n := fun n h => Nat.mod_eq_of_lt h
  simp only [setValue, dataWrite, hmod _ (intToByte_lt _)]
  by_cases h : cround (q * (TPL0102_TAP_NUMBER : ℚ) / s.nominalResistance) = (tapGet s ch : Int)
  · simp [h]
  · simp [h]

/-- C2 (amended): the result code of `Wire.endTransmission` is stored
only to be debug-printed, so every write operation's resulting state and
transaction list are independent of whether the bus transaction
succeeded or failed — on failure the mirror is still updated, not left
at its previous value. -/
theorem tx_result_ignored (s : State) (ch : Fin 2) (r r' : Int) (d : Nat) (q : ℚ) :
    inc s ch r = inc s ch r' ∧
    dec s ch r = dec s ch r' ∧
    setTap s ch d r = setTap s ch d r' ∧
    setValue s ch q r = setValue s ch q r' ∧
    zeroWiper s ch r = zeroWiper s ch r' ∧
    maxWiper s ch r = maxWiper s ch r' ∧
    dataWrite s ch d r = dataWrite s ch d r' :=
  ⟨rfl, rfl, rfl, rfl, rfl, rfl, rfl⟩

/-- C2 (counterexample): from a mirror at 5, `inc` with a failing
transaction result (code 4) still issues the write and leaves the
mirror at 6 — not at its value 5 from before the operation, as the
claim states. -/
theorem inc_failure_updates_mirror :
    (inc midState 0 4).2 = [Tx.write WRA 6] ∧
    tapGet (inc midState 0 4).1 0 = 6 ∧ tapGet midState 0 = 5 ∧ (6 : Nat) ≠ 5 := by
  refine ⟨by decide, by decide, by decide, by decide⟩

/-- C3: starting from tap 0, k increments on a channel leave its mirror
at min(k, MAX_TAP); an increment attempted while the mirror sits at
MAX_TAP issues no transaction and leaves the position unchanged. -/
theorem inc_saturates (s : State) (ch : Fin 2) :
    (∀ k, tapGet s ch = 0 →
      tapGet (incN s ch k) ch = min k TPL0102_TAP_NUMBER) ∧
    (∀ r : Int, tapGet s ch = TPL0102_TAP_NUMBER →
      (inc s ch r).2 = [] ∧ tapGet (inc s ch r).1 ch = tapGet s ch) := by
  constructor
  · intro k h0
    rw [incN_tapGet s ch k (by rw [h0]; exact Nat.zero_le _), h0, Nat.zero_add]
  · intro r h64
    fin_cases ch <;>
    · simp only [inc, dataWrite, tapGet, tapSet, TPL0102_TAP_NUMBER] at *
      split_ifs <;> simp_all

/-- C3 witness at concrete inputs: 70 increments from 0 saturate at 64,
and an increment at the saturated state is transaction-free. -/
theorem inc_saturates_witness :
    tapGet (incN initState 0 70) 0 = min 70 TPL0102_TAP_NUMBER ∧
    ((inc maxState 0 0).2 = [] ∧ tapGet (inc maxState 0 0).1 0 = tapGet maxState 0) :=
  ⟨(inc_saturates initState 0).1 70 (by decide),
   (inc_saturates maxState 0).2 0 (by decide)⟩

/-- C7: `zeroWiper` drives the mirror to 0 and `maxWiper` to MAX_TAP,
and each issues exactly one wiper-register write from every state —
including states already at the target value — with no no-op
short-circuit. -/
theorem zero_max_always_write (s : State) (ch : Fin 2) (r : Int) :
    tapGet (zeroWiper s ch r).1 ch = 0 ∧
    (zeroWiper s ch r).2 = [Tx.write (if ch = 0 then WRA else WRB) 0] ∧
    tapGet (maxWiper s ch r).1 ch = TPL0102_TAP_NUMBER ∧
    (maxWiper s ch r).2 = [Tx.write (if ch = 0 then WRA else WRB) TPL0102_TAP_NUMBER] := by
  fin_cases ch <;>
    simp [zeroWiper, maxWiper, dataWrite, tapGet, tapSet, TPL0102_TAP_NUMBER]

/-- C10: both `begin` overloads pass the constant `STANDARD` to the
clock-configuration call and never consult their `speed` argument: the
entire result (state and transactions) is the same for any two speeds,
and the issued transaction list opens with `setClock STANDARD` followed
by the three register read-backs. -/
theorem begin_speed_ignored (s : State) (addr speed speed' : Nat) (nomRes : ℚ)
    (rv : Fin 3 → Nat) :
    beginDefault s addr speed rv = beginDefault s addr speed' rv ∧
    beginNomRes s addr nomRes speed rv = beginNomRes s addr nomRes speed' rv ∧
    (beginDefault s addr speed rv).2 =
      [Tx.setClock STANDARD, Tx.readReg WRA, Tx.readReg WRB, Tx.readReg ACR] ∧
    (beginNomRes s addr nomRes speed rv).2 =
      [Tx.setClock STANDARD, Tx.readReg WRA, Tx.readReg WRB, Tx.readReg ACR] :=
  ⟨rfl, rfl, rfl, rfl⟩

/-- C4: `switchPot` reads the control byte X and writes back
X OR shutdown-mask to enable (HIGH) and X XOR shutdown-mask to disable
(LOW); since XOR is an involution, a second disable from any byte value
restores the original byte, so disabling twice from an enabled state
(mask bits set) leaves the channel enabled again. -/
theorem switchPot_toggle (s : State) (ch : Fin 2) (X : Nat) :
    (switchPot s ch HIGH X).2 =
      [Tx.readReg ACR, Tx.write ACR ((X % 256 ||| SHUTDOWN_MASK) % 256)] ∧
    (switchPot s ch LOW X).2 =
      [Tx.readReg ACR, Tx.write ACR ((X % 256 ^^^ SHUTDOWN_MASK) % 256)] ∧
    shdnInstr LOW (shdnInstr LOW X) = X % 256 ∧
    (X % 256 &&& SHUTDOWN_MASK = SHUTDOWN_MASK →
      shdnInstr LOW (shdnInstr LOW X) &&& SHUTDOWN_MASK = SHUTDOWN_MASK) := by
  have hx : X % 256 < 256 := Nat.mod_lt _ (by norm_num)
  have h1 : X % 256 ^^^ SHUTDOWN_MASK < 256 := by
    have := Nat.xor_lt_two_pow (n := 8) (x := X % 256) (y := SHUTDOWN_MASK)
      (by simpa using hx) (by decide)
    simpa using this
  have hdouble : shdnInstr LOW (shdnInstr LOW X) = X % 256 := by
    have e0 : shdnInstr LOW X = X % 256 ^^^ SHUTDOWN_MASK := by
      simp [shdnInstr, LOW, HIGH, Nat.mod_eq_of_lt h1]
    rw [e0]
    have e1 : shdnInstr LOW (X % 256 ^^^ SHUTDOWN_MASK) =
        ((X % 256 ^^^ SHUTDOWN_MASK) ^^^ SHUTDOWN_MASK) % 256 := by
      simp [shdnInstr, LOW, HIGH, Nat.mod_eq_of_lt h1]
    rw [e1, Nat.xor_cancel_right]
    omega
  refine ⟨rfl, rfl, hdouble, fun hen => ?_⟩
  rw [hdouble, hen]

/-- C4 witness: from the fully enabled control byte 255, two disables
restore a byte whose shutdown-mask bits are set. -/
theorem switchPot_toggle_witness :
    255 % 256 &&& SHUTDOWN_MASK = SHUTDOWN_MASK ∧
    shdnInstr LOW (shdnInstr LOW 255) &&& SHUTDOWN_MASK = SHUTDOWN_MASK :=
  ⟨by decide, (switchPot_toggle initState 0 255).2.2.2 (by decide)⟩

/-- C6 (amended): the second of two consecutive `setTap` calls with the
same target is always a no-op (no transaction, no state change); the
pair issues exactly one write when the mirror initially differs from the
target, and zero writes when it already equals it. -/
theorem setTap_idempotent (s : State) (ch : Fin 2) (t : Nat) (r1 r2 : Int) :
    (setTap (setTap s ch t r1).1.1 ch t r2).1.2 = [] ∧
    (setTap (setTap s ch t r1).1.1 ch t r2).1.1 = (setTap s ch t r1).1.1 ∧
    (t % 256 ≠ tapGet s ch →
      (setTap s ch t r1).1.2 = [Tx.write (if ch = 0 then WRA else WRB) (t % 256)]) ∧
    (t % 256 = tapGet s ch → (setTap s ch t r1).1.2 = []) := by
  by_cases h : t % 256 = tapGet s ch
  · rw [setTap_unfold s ch t r1, if_pos h]
    rw [setTap_unfold s ch t r2, if_pos h]
    exact ⟨rfl, rfl, fun hne => absurd h hne, fun _ => rfl⟩
  · rw [setTap_unfold s ch t r1, if_neg h]
    rw [setTap_unfold _ ch t r2, if_pos (tapGet_tapSet_self _ _ _).symm]
    exact ⟨rfl, rfl, fun _ => rfl, fun he => absurd he h⟩

/-- C6 witness: from mirror 0, `setTap` to 5 issues one write; from
mirror 5, `setTap` to 5 issues none. -/
theorem setTap_idempotent_witness :
    (setTap initState 0 5 0).1.2 =
      [Tx.write (if (0 : Fin 2) = 0 then WRA else WRB) (5 % 256)] ∧
    (setTap midState 0 5 0).1.2 = [] :=
  ⟨(setTap_idempotent initState 0 5 0 0).2.2.1 (by decide),
   (setTap_idempotent midState 0 5 0 0).2.2.2 (by decide)⟩

/-- C6 (counterexample): with the channel-A mirror already at 5, two
consecutive `setTap(A, 5)` calls issue zero wiper-register writes, not
exactly one. -/
theorem setTap_twice_zero_writes :
    ((setTap midState 0 5 0).1.2 ++
      (setTap ((setTap midState 0 5 0).1.1) 0 5 0).1.2).length = 0 ∧
    (0 : Nat) ≠ 1 := by decide

/-- A driver state whose channel-B mirror sits at 5, with channel A
selected. -/
def stateB5 : State := { initState with tapPointer1 := 5 }

/-- C9 (amended): the accessors `wiper`, `taps`, `readValue` and the
operations `inc`, `dec`, `zeroWiper`, `maxWiper`, `switchPot`,
`setChannel` all set the selected-channel cursor to their channel
argument unconditionally; `setTap` and `setValue` set it only when they
issue a write (via `dataWrite`), and leave it untouched on their no-op
path. -/
theorem cursor_updates (s : State) (ch : Fin 2) (r : Int) (d : Nat) (q : ℚ)
    (st X : Nat) :
    (wiper s ch).1.selectedChannel = ch.val ∧
    (taps s ch).1.selectedChannel = ch.val ∧
    (readValue s ch).1.selectedChannel = ch.val ∧
    (inc s ch r).1.selectedChannel = ch.val ∧
    (dec s ch r).1.selectedChannel = ch.val ∧
    (zeroWiper s ch r).1.selectedChannel = ch.val ∧
    (maxWiper s ch r).1.selectedChannel = ch.val ∧
    (switchPot s ch st X).1.selectedChannel = ch.val ∧
    (setChannel s ch).1.selectedChannel = ch.val ∧
    (d % 256 ≠ tapGet s ch → (setTap s ch d r).1.1.selectedChannel = ch.val) ∧
    (d % 256 = tapGet s ch →
      (setTap s ch d r).1.1.selectedChannel = s.selectedChannel) ∧
    (cround (q * (TPL0102_TAP_NUMBER : ℚ) / s.nominalResistance) ≠ (tapGet s ch : Int) →
      (setValue s ch q r).1.1.selectedChannel = ch.val) ∧
    (cround (q * (TPL0102_TAP_NUMBER : ℚ) / s.nominalResistance) = (tapGet s ch : Int) →
      (setValue s ch q r).1.1.selectedChannel = s.selectedChannel) := by
  refine ⟨rfl, rfl, rfl, ?_, ?_, ?_, ?_, rfl, rfl, ?_, ?_, ?_, ?_⟩
  · fin_cases ch <;> simp [inc, dataWrite, tapGet, tapSet] <;> split_ifs <;> rfl
  · fin_cases ch <;> simp [dec, dataWrite, tapGet, tapSet] <;> split_ifs <;> rfl
  · fin_cases ch <;> simp [zeroWiper, dataWrite, tapGet, tapSet]
  · fin_cases ch <;> simp [maxWiper, dataWrite, tapGet, tapSet]
  · intro h
    rw [setTap_unfold, if_neg h]
    fin_cases ch <;> simp [tapSet]
  · intro h
    rw [setTap_unfold, if_pos h]
  · intro h
    rw [setValue_unfold, if_neg h]
    fin_cases ch <;> simp [tapSet]
  · intro h
    rw [setValue_unfold, if_pos h]

/-- C9 witness: `inc` on channel B sets the cursor to 1, and a `setTap`
that actually writes sets it to its channel, while a no-op `setTap`
leaves it where it was. -/
theorem cursor_updates_witness :
    (inc initState 1 0).1.selectedChannel = (1 : Fin 2).val ∧
    (setTap initState 0 5 0).1.1.selectedChannel = (0 : Fin 2).val ∧
    (setTap midState 0 5 0).1.1.selectedChannel = midState.selectedChannel :=
  ⟨(cursor_updates initState 1 0 5 0 0 0).2.2.2.1,
   (cursor_updates initState 0 0 5 0 0 0).2.2.2.2.2.2.2.2.2.1 (by decide),
   (cursor_updates midState 0 0 5 0 0 0).2.2.2.2.2.2.2.2.2.2.1 (by decide)⟩

/-- C9 (counterexample): with channel A selected and the channel-B
mirror already at 5, `setTap(B, 5)` issues no write and returns with
the cursor still at 0, not at the channel argument 1. -/
theorem setTap_noop_skips_cursor :
    stateB5.selectedChannel = 0 ∧
    (setTap stateB5 1 5 0).1.2 = [] ∧
    (setTap stateB5 1 5 0).1.1.selectedChannel = 0 ∧
    (0 : Nat) ≠ (1 : Fin 2).val := by decide

/-- The spec's per-channel range invariant: both tap mirrors lie in
[0, MAX_TAP]. -/
def tapInRange (s : State) : Prop :=
  s.tapPointer0 ≤ TPL0102_TAP_NUMBER ∧ s.tapPointer1 ≤ TPL0102_TAP_NUMBER

instance tapInRangeDecidable (s : State) : Decidable (tapInRange s) :=
  inferInstanceAs (Decidable (_ ∧ _))

/-- C1 (amended): `inc`, `dec`, `zeroWiper`, `maxWiper` preserve the
[0, MAX_TAP] range invariant from any in-range state; `setTap` and
`setValue` preserve it only under the extra hypothesis that their
(byte-reduced) tap target is itself at most MAX_TAP — an out-of-range
target is written into the mirror verbatim. -/
theorem tap_invariant (s : State) (ch : Fin 2) (r : Int) (d : Nat) (q : ℚ)
    (h : tapInRange s) :
    tapInRange (inc s ch r).1 ∧ tapInRange (dec s ch r).1 ∧
    tapInRange (zeroWiper s ch r).1 ∧ tapInRange (maxWiper s ch r).1 ∧
    (d % 256 ≤ TPL0102_TAP_NUMBER → tapInRange (setTap s ch d r).1.1) ∧
    (intToByte (cround (q * (TPL0102_TAP_NUMBER : ℚ) / s.nominalResistance)) ≤
        TPL0102_TAP_NUMBER →
      tapInRange (setValue s ch q r).1.1) := by
  refine ⟨?_, ?_, ?_, ?_, ?_, ?_⟩
  · fin_cases ch <;>
    · simp only [inc, dataWrite, tapGet, tapSet, tapInRange, TPL0102_TAP_NUMBER] at h ⊢
      split_ifs <;> simp_all <;> omega
  · fin_cases ch <;>
    · simp only [dec, dataWrite, tapGet, tapSet, tapInRange, TPL0102_TAP_NUMBER] at h ⊢
      split_ifs <;> simp_all <;> omega
  · fin_cases ch <;>
    · simp only [zeroWiper, dataWrite, tapGet, tapSet, tapInRange, TPL0102_TAP_NUMBER] at h ⊢
      simp_all
  · fin_cases ch <;>
    · simp only [maxWiper, dataWrite, tapGet, tapSet, tapInRange, TPL0102_TAP_NUMBER] at h ⊢
      simp_all
  · intro hd
    rw [setTap_unfold]
    split_ifs with he
    · exact h
    all_goals
      fin_cases ch <;> simp_all [tapSet, tapInRange, TPL0102_TAP_NUMBER]
  · intro hq
    rw [setValue_unfold]
    split_ifs with he
    · exact h
    all_goals
      fin_cases ch <;> simp_all [tapSet, tapInRange, TPL0102_TAP_NUMBER]

/-- C1 witness: from the all-zero initial state, `inc` keeps both
mirrors in range, and `setTap` to 3 and `setValue` targeting tap 0 do
too. -/
theorem tap_invariant_witness :
    tapInRange initState ∧
    tapInRange (inc initState 0 0).1 ∧
    tapInRange ((setTap initState 0 3 0).1.1) ∧
    tapInRange ((setValue initState 0 0 0).1.1) :=
  ⟨by decide,
   (tap_invariant initState 0 0 3 0 (by decide)).1,
   (tap_invariant initState 0 0 3 0 (by decide)).2.2.2.2.1 (by decide),
   (tap_invariant initState 0 0 3 0 (by decide)).2.2.2.2.2 (by
     norm_num [cround, intToByte, TPL0102_TAP_NUMBER, initState])⟩

/-- C1 (counterexample): from an in-range state, the public operation
`setTap(A, 200)` leaves the channel-A mirror at 200, outside
[0, MAX_TAP]. -/
theorem setTap_breaks_range :
    tapInRange initState ∧ ¬ tapInRange ((setTap initState 0 200 0).1.1) := by
  decide

/-- C8 (amended): `wiper` always returns exactly tapPosition / 64; that
value lies in [0, 1] whenever the tap position is within [0, MAX_TAP],
which out-of-range `setTap`/`setValue` targets can violate. -/
theorem wiper_fraction (s : State) (ch : Fin 2) :
    (wiper s ch).2 = (tapGet s ch : ℚ) / 64 ∧
    (tapGet s ch ≤ TPL0102_TAP_NUMBER →
      0 ≤ (wiper s ch).2 ∧ (wiper s ch).2 ≤ 1) := by
  constructor
  · norm_num [wiper, TPL0102_TAP_NUMBER]
  · intro h
    constructor
    · simp only [wiper]
      positivity
    · simp only [wiper]
      rw [div_le_one (by norm_num [TPL0102_TAP_NUMBER])]
      norm_num [TPL0102_TAP_NUMBER]
      exact_mod_cast h

/-- C8 witness: at the initial state the fraction is 0/64 = 0, within
[0, 1]. -/
theorem wiper_fraction_witness :
    tapGet initState 0 ≤ TPL0102_TAP_NUMBER ∧
    0 ≤ (wiper initState 0).2 ∧ (wiper initState 0).2 ≤ 1 :=
  ⟨by decide, (wiper_fraction initState 0).2 (by decide)⟩

/-- C8 (counterexample): after the public operation `setTap(A, 200)`,
`wiper(A)` returns 200/64 = 25/8, which exceeds 1. -/
theorem wiper_above_one :
    (wiper ((setTap initState 0 200 0).1.1) 0).2 = 25 / 8 ∧
    ¬ (wiper ((setTap initState 0 200 0).1.1) 0).2 ≤ 1 := by
  have h : tapGet ((setTap initState 0 200 0).1.1) 0 = 200 := by decide
  constructor
  · simp only [wiper, h]
    norm_num [TPL0102_TAP_NUMBER]
  · simp only [wiper, h]
    norm_num [TPL0102_TAP_NUMBER]

/-- C5 (amended): `setValue` computes the rounded tap target
T = round(desiredR * MAX_TAP / nominalResistance) as an `int`, issues
exactly one wiper write carrying the byte reduction of T when T differs
from the mirror and none otherwise, and returns the byte reduction of T
— which equals T itself exactly when T lies in [0, 255].  In the
spec scenario (nominal 10000 Ω, desired 2500 Ω, mirror 0) the target is
16: one write of 16 is issued and 16 is returned. -/
theorem setValue_spec (s : State) (ch : Fin 2) (q : ℚ) (r : Int) :
    ((setValue s ch q r).2 =
      intToByte (cround (q * (TPL0102_TAP_NUMBER : ℚ) / s.nominalResistance)) ∧
    (cround (q * (TPL0102_TAP_NUMBER : ℚ) / s.nominalResistance) ≠ (tapGet s ch : Int) →
      (setValue s ch q r).1.2 =
        [Tx.write (if ch = 0 then WRA else WRB)
          (intToByte (cround (q * (TPL0102_TAP_NUMBER : ℚ) / s.nominalResistance)))] ∧
      tapGet (setValue s ch q r).1.1 ch =
        intToByte (cround (q * (TPL0102_TAP_NUMBER : ℚ) / s.nominalResistance))) ∧
    (cround (q * (TPL0102_TAP_NUMBER : ℚ) / s.nominalResistance) = (tapGet s ch : Int) →
      (setValue s ch q r).1 = (s, [])) ∧
    (∀ T : Int, 0 ≤ T → T < 256 → (intToByte T : Int) = T)) ∧
    ((setValue initState 0 2500 0).2 = 16 ∧
     (setValue initState 0 2500 0).1.2 = [Tx.write WRA 16] ∧
     tapGet (setValue initState 0 2500 0).1.1 0 = 16) := by
  have h16 : cround ((2500 : ℚ) * (TPL0102_TAP_NUMBER : ℚ) / initState.nominalResistance) = 16 := by
    norm_num [cround, TPL0102_TAP_NUMBER, initState]
  have hmiss : cround ((2500 : ℚ) * (TPL0102_TAP_NUMBER : ℚ) / initState.nominalResistance) ≠
      ((tapGet initState 0 : Nat) : Int) := by
    rw [h16]
    norm_num [tapGet, initState]
  refine ⟨⟨?_, ?_, ?_, ?_⟩, ?_, ?_, ?_⟩
  · rw [setValue_unfold]
    split_ifs <;> rfl
  · intro hne
    rw [setValue_unfold, if_neg hne]
    exact ⟨rfl, tapGet_tapSet_self _ _ _⟩
  · intro heq
    rw [setValue_unfold, if_pos heq]
  · intro T h0 h256
    unfold intToByte
    omega
  · rw [setValue_unfold, if_neg hmiss, h16]
    decide
  · rw [setValue_unfold, if_neg hmiss, h16]
    decide
  · rw [setValue_unfold, if_neg hmiss, h16]
    decide

/-- C5 witness: a target differing from the mirror (midState, desired
0 Ω) triggers exactly one write, an equal target (initState, desired
0 Ω) triggers none, and the byte reduction is the identity on 16. -/
theorem setValue_spec_witness :
    ((setValue midState 0 0 0).1.2 =
      [Tx.write (if (0 : Fin 2) = 0 then WRA else WRB)
        (intToByte (cround ((0 : ℚ) * (TPL0102_TAP_NUMBER : ℚ) / midState.nominalResistance)))] ∧
     tapGet (setValue midState 0 0 0).1.1 0 =
       intToByte (cround ((0 : ℚ) * (TPL0102_TAP_NUMBER : ℚ) / midState.nominalResistance))) ∧
    (setValue initState 0 0 0).1 = (initState, []) ∧
    (intToByte 16 : Int) = 16 :=
  ⟨(setValue_spec midState 0 0 0).1.2.1
      (by norm_num [cround, tapGet, midState, initState, TPL0102_TAP_NUMBER]),
   (setValue_spec initState 0 0 0).1.2.2.1
      (by norm_num [cround, tapGet, initState, TPL0102_TAP_NUMBER]),
   (setValue_spec initState 0 0 0).1.2.2.2 16 (by norm_num) (by norm_num)⟩

/-- C5 (counterexample): with nominal 10000 Ω and mirror 0, a desired
50000 Ω yields tap target 320, but `setValue` writes and returns the
`uint8_t` truncation 64, not 320 — the claim's universal "writes that
value and returns tapTarget" fails outside [0, 255]. -/
theorem setValue_truncates :
    cround ((50000 : ℚ) * (TPL0102_TAP_NUMBER : ℚ) / initState.nominalResistance) = 320 ∧
    (setValue initState 0 50000 0).2 = 64 ∧
    (setValue initState 0 50000 0).1.2 = [Tx.write WRA 64] ∧
    (64 : Int) ≠ 320 := by
  have h320 : cround ((50000 : ℚ) * (TPL0102_TAP_NUMBER : ℚ) / initState.nominalResistance) = 320 := by
    norm_num [cround, TPL0102_TAP_NUMBER, initState]
  have hmiss : cround ((50000 : ℚ) * (TPL0102_TAP_NUMBER : ℚ) / initState.nominalResistance) ≠
      ((tapGet initState 0 : Nat) : Int) := by
    rw [h320]
    norm_num [tapGet, initState]
  refine ⟨h320, ?_, ?_, by norm_num⟩
  · rw [setValue_unfold, if_neg hmiss, h320]
    decide
  · rw [setValue_unfold, if_neg hmiss, h320]
    decide

end TPL0102
